import Mathlib

/-!
Verification development for the session-establishment orchestrator of
openconnect-sso.  The Python sources `openconnect_sso/app.py` and
`openconnect_sso/cli.py` are shallowly embedded as pure Lean functions.
External collaborators (profile discovery, the interactive selector, the
authenticator, the child process) are modelled as an environment record
whose fields hold the values those collaborators would return; the
side effects the orchestrator performs are collected in an event trace.
-/

namespace OpenconnectSso

/-- A VPN endpoint, as held in the configuration (`config.HostProfile`).
`config.py` is not part of the analysed sources, so only the fields the
orchestrator reads (`name`, `address`, `usergroup`, the derived `vpn_url`)
are modelled, as plain data. -/
structure HostProfile where
  name : String
  address : String
  usergroup : String
  vpn_url : String
deriving DecidableEq, Repr, Inhabited

/-- Modelled from the spec: the `config.HostProfile(server, usergroup)`
constructor used at app.py line 86 (`config.py` is missing from the
sources).  Per the spec a HostProfile is constructed from the explicit
server string directly; the exact parsing grammar is left open by the
spec, so the model keeps the server string as name and address and
derives a URL from address and usergroup. -/
def HostProfile.fromServer (server usergroup : String) : HostProfile :=
  { name := server
    address := server
    usergroup := usergroup
    vpn_url := "https://" ++ server ++ "/" ++ usergroup }

/-- User credentials (`config.Credentials`): a username and an optional
password, as in app.py lines 65-71. -/
structure Credentials where
  username : String
  password : Option String := none
deriving DecidableEq, Repr

/-- The persisted configuration: the fields the orchestrator reads and
writes (`credentials`, `default_profile`). -/
structure Config where
  credentials : Option Credentials := none
  default_profile : Option HostProfile := none
deriving DecidableEq, Repr

/-- Result of a successful authentication.  `session_token` and
`server_cert_hash` are the attributes read by `run_openconnect`;
`extra` stands for any further response attributes. -/
structure AuthResponse where
  session_token : String
  server_cert_hash : String
  extra : List (String × String) := []
deriving DecidableEq, Repr

/-- Modelled from the spec: `AuthResponse.asdict` (defined in the missing
`authenticator.py`) is the associative export of all AuthResponse fields
plus any additional response attributes, used by the headless output. -/
def AuthResponse.asdict (r : AuthResponse) : List (String × String) :=
  [("session_token", r.session_token), ("server_cert_hash", r.server_cert_hash)] ++ r.extra

/-- The Python exception kinds that can cross the `_run`/`run` boundary:
the four kinds caught in `run` (app.py lines 32-39) and the `ValueError`
raised at app.py line 88. -/
inductive PyExc where
  | keyboardInterrupt
  | terminated
  | authResponseError (msg : String)
  | httpError (msg : String)
  | valueError (msg : String)
deriving DecidableEq, Repr

/-- Observable actions of a run, in program order: calls into the
external collaborators, the configuration write, child-process I/O,
standard-output writes and log lines (logs go to stderr via the
`logging.StreamHandler` installed in `configure_logger`). -/
inductive Event where
  | getProfilesCall (path : String)
  | selectProfileCall (profiles : List HostProfile)
  | saveConfig (cfg : Config)
  | authenticateCall (host : HostProfile)
  | spawn (argv : List String)
  | stdinWrite (data : String)
  | stdinDrain
  | stdinClose
  | procWait
  | printStdout (s : String)
  | logWarn (msg : String)
  | logError (msg : String)
deriving DecidableEq, Repr

/-- The command-line arguments relevant to `_run` and `main`
(argparse namespace built in `cli.create_argparser`). -/
structure Args where
  user : Option String := none
  use_profile_selector : Bool := false
  profile_path : Option String := none
  server : Option String := none
  usergroup : String := ""
  headless : Bool := false
  version_string : String := ""
  openconnect_args : List String := []
  show_version : Bool := false
deriving DecidableEq, Repr

/-- Python truthiness of an optional string (argparse defaults are `None`;
an empty string is also falsy). -/
def pyTruthy : Option String → Bool
  | none => false
  | some s => !s.isEmpty

/-- The environment: what the external collaborators would answer on this
run.  `getpassResult` is the password typed at the `getpass` prompt,
`profiles` the result of `get_profiles`, `selection` the result of the
`select_profile` dialog, `authResult` the outcome of
`Authenticator.authenticate` (also carrying an interrupt delivered while
awaiting it), and `childExit` the exit status of the spawned child. -/
structure Env where
  getpassResult : String := ""
  profiles : List HostProfile := []
  selection : Option HostProfile := none
  authResult : Except PyExc AuthResponse
  childExit : Int := 0
deriving Repr

/-- JSON string escaping as `json.dumps` performs it on the quote and
backslash characters (the only ones exercised here). -/
def jsonEscapeChar (c : Char) : String :=
  if c = '"' then "\\\""
  else if c = '\\' then "\\\\"
  else String.singleton c

/-- A JSON string literal. -/
def jsonQuote (s : String) : String :=
  "\"" ++ String.join (s.data.map jsonEscapeChar) ++ "\""

/-- `json.dumps(d, indent=2)` for a flat dict of string values. -/
def jsonDumpsIndent2 (kvs : List (String × String)) : String :=
  match kvs with
  | [] => "\x7b\x7d"
  | _ =>
    "\x7b\n"
      ++ String.intercalate ",\n"
          (kvs.map (fun kv => "  " ++ jsonQuote kv.1 ++ ": " ++ jsonQuote kv.2))
      ++ "\n\x7d"

/-- Python dict assignment `d[k] = v` on an association list: overwrite in
place when the key is present, append otherwise. -/
def dictSet (kvs : List (String × String)) (k v : String) : List (String × String) :=
  if kvs.any (fun kv => kv.1 = k) then
    kvs.map (fun kv => if kv.1 = k then (k, v) else kv)
  else kvs ++ [(k, v)]

/-- app.py lines 129-149 (`run_openconnect`): build the child argument
list, spawn the child, write the session token and a newline to its
stdin, drain, and wait.  The function body never reads the child's exit
status (`childExit`) and falls off the end, returning `None`. -/
def run_openconnect (auth_info : AuthResponse) (host : HostProfile)
    (args : List String) (childExit : Int) : Option Int × List Event :=
  let _ := childExit
  let command_line :=
    ["sudo", "openconnect", "--cookie-on-stdin", "--servercert",
      auth_info.server_cert_hash] ++ args
  (none,
    [Event.spawn (command_line ++ [host.vpn_url]),
     Event.stdinWrite (auth_info.session_token ++ "\n"),
     Event.stdinDrain,
     Event.procWait])

/-- app.py lines 65-71: reuse stored credentials if present, else prompt
for a password when a username was supplied (storing the credentials back
into the configuration value), else proceed without credentials. -/
def resolveCredentials (args : Args) (cfg : Config) (env : Env) :
    Option Credentials × Config :=
  if cfg.credentials.isSome then (cfg.credentials, cfg)
  else if pyTruthy args.user then
    let c : Credentials :=
      { username := args.user.getD "", password := some env.getpassResult }
    (some c, { cfg with credentials := some c })
  else (none, cfg)

/-- Outcome of the profile-resolution block of `_run`: a selected
profile, an early `return` with an exit code, or a raised exception. -/
inductive Resolution where
  | selected (p : HostProfile)
  | earlyReturn (code : Int)
  | raised (e : PyExc)
deriving DecidableEq, Repr

/-- app.py lines 73-90: the profile-resolution block of `_run`.
Stored default (when no selector flag and no server argument), else the
discovery-and-select path (when the selector flag or a profile path is
given), else an explicit server, else `raise ValueError(...)`. -/
def resolveProfile (args : Args) (cfg : Config) (env : Env) :
    Resolution × List Event :=
  if cfg.default_profile.isSome
      && !(args.use_profile_selector || pyTruthy args.server) then
    (Resolution.selected (cfg.default_profile.getD default), [])
  else if args.use_profile_selector || pyTruthy args.profile_path then
    if env.profiles.isEmpty then
      (Resolution.earlyReturn 17,
        [Event.getProfilesCall (args.profile_path.getD ""),
         Event.logError "No profile found"])
    else
      match env.selection with
      | none =>
        (Resolution.earlyReturn 18,
          [Event.getProfilesCall (args.profile_path.getD ""),
           Event.selectProfileCall env.profiles,
           Event.logError "No profile selected"])
      | some p =>
        (Resolution.selected p,
          [Event.getProfilesCall (args.profile_path.getD ""),
           Event.selectProfileCall env.profiles])
  else if pyTruthy args.server then
    (Resolution.selected (HostProfile.fromServer (args.server.getD "") args.usergroup), [])
  else
    (Resolution.raised
      (PyExc.valueError "Cannot determine server address. Invalid arguments specified."), [])

/-- app.py lines 62-104 (`_run`): resolve credentials, resolve the
profile, store it as the new default and save the configuration, then
authenticate; on success either emit the headless JSON document and
return 0, or launch the VPN client.  The result is the coroutine's
return value (`Option Int`, `none` for Python `None`) or the exception
it raises, paired with the event trace. -/
def _run (args : Args) (cfg0 : Config) (env : Env) :
    Except PyExc (Option Int) × List Event :=
  let rc := resolveCredentials args cfg0 env
  let cfg := rc.2
  let rp := resolveProfile args cfg env
  match rp.1 with
  | Resolution.earlyReturn code => (Except.ok (some code), rp.2)
  | Resolution.raised e => (Except.error e, rp.2)
  | Resolution.selected selected_profile =>
    let cfg' := { cfg with default_profile := some selected_profile }
    let evs := rp.2 ++ [Event.saveConfig cfg', Event.authenticateCall selected_profile]
    match env.authResult with
    | Except.error e => (Except.error e, evs)
    | Except.ok auth_response =>
      if args.headless then
        let response_data := dictSet auth_response.asdict "headend" selected_profile.vpn_url
        (Except.ok (some 0),
          evs ++ [Event.logWarn "Exiting after login, as requested",
                  Event.printStdout (jsonDumpsIndent2 response_data ++ "\n")])
      else
        let ro := run_openconnect auth_response selected_profile args.openconnect_args env.childExit
        (Except.ok ro.1, evs ++ ro.2)

/-- app.py lines 25-39 (`run`): drive `_run` to completion, catching
`KeyboardInterrupt`, `Terminated`, `AuthResponseError` and `HTTPError`
(each mapped to a log line, after which `run` falls off the end and
returns `None`).  Any other exception propagates. -/
def run (args : Args) (cfg : Config) (env : Env) :
    Except PyExc (Option Int) × List Event :=
  let r := _run args cfg env
  match r.1 with
  | Except.ok v => (Except.ok v, r.2)
  | Except.error PyExc.keyboardInterrupt =>
    (Except.ok none, r.2 ++ [Event.logWarn "CTRL-C pressed, exiting"])
  | Except.error PyExc.terminated =>
    (Except.ok none, r.2 ++ [Event.logWarn "Browser window terminated, exiting"])
  | Except.error (PyExc.authResponseError msg) =>
    (Except.ok none,
      r.2 ++ [Event.logError
        ("Required attributes not found in response (\"" ++ msg
          ++ "\", does this endpoint do SSO?), exiting")])
  | Except.error (PyExc.httpError msg) =>
    (Except.ok none, r.2 ++ [Event.logError ("Request error: " ++ msg)])
  | Except.error e => (Except.error e, r.2)

/-- The process exit status produced by `sys.exit(main())` for a value
returned or an exception escaping: `None` exits 0, an integer exits with
that integer, an uncaught exception makes the interpreter exit 1. -/
def sysExitCode : Except PyExc (Option Int) → Int
  | Except.ok none => 0
  | Except.ok (some n) => n
  | Except.error _ => 1

/-- Outcome of `cli.main`: `usageExit` is `parser.error` (message on
stderr, `SystemExit(2)`), `versionShown` is the `--version` early return,
`ran` carries the result and trace of `app.run`. -/
inductive MainOutcome where
  | usageExit (code : Int) (msg : String)
  | versionShown
  | ran (result : Except PyExc (Option Int)) (events : List Event)
deriving Repr

/-- cli.py lines 127-155 (`main`): show the version and return; else
reject combining profile-selection flags with server/usergroup; else
fall back to the AnyConnect profile directory (or error) when no
profile source exists; else require a profile path with the selector
flag; else invoke `app.run`. -/
def main (args0 : Args) (storedCfg : Config) (env : Env)
    (anyconnectDirExists : Bool) : MainOutcome :=
  if args0.show_version then MainOutcome.versionShown
  else if (pyTruthy args0.profile_path || args0.use_profile_selector)
      && (pyTruthy args0.server || !args0.usergroup.isEmpty) then
    MainOutcome.usageExit 2
      "--profile/--profile-selector and --server/--usergroup are mutually exclusive"
  else if !pyTruthy args0.profile_path && !pyTruthy args0.server
      && storedCfg.default_profile.isNone && !anyconnectDirExists then
    MainOutcome.usageExit 2
      "No AnyConnect profile can be found. One of --profile or --server arguments required."
  else
    let args1 :=
      if !pyTruthy args0.profile_path && !pyTruthy args0.server
          && storedCfg.default_profile.isNone then
        { args0 with profile_path := some "/opt/cisco/anyconnect/profile" }
      else args0
    if args1.use_profile_selector && !pyTruthy args1.profile_path then
      MainOutcome.usageExit 2
        "No AnyConnect profile can be found. --profile argument is required."
    else
      let r := run args1 storedCfg env
      MainOutcome.ran r.1 r.2

/-- The process exit status of a full `sys.exit(main())` invocation. -/
def mainExitCode : MainOutcome → Int
  | MainOutcome.usageExit c _ => c
  | MainOutcome.versionShown => 0
  | MainOutcome.ran r _ => sysExitCode r

/-- Does an event record a configuration save? -/
def isSave : Event → Bool
  | Event.saveConfig _ => true
  | _ => false

/-- Does an event record a call into the Authentication Invoker? -/
def isAuth : Event → Bool
  | Event.authenticateCall _ => true
  | _ => false

/-- The payloads written to standard output within a trace. -/
def stdoutWrites (evs : List Event) : List String :=
  evs.filterMap (fun e => match e with
    | Event.printStdout s => some s
    | _ => none)

/-! ### Structural lemmas about the embedding -/

/-- Resolving credentials only touches the `credentials` field: the stored
default profile is unchanged. -/
lemma resolveCredentials_default_profile (args : Args) (cfg : Config) (env : Env) :
    ((resolveCredentials args cfg env).2).default_profile = cfg.default_profile := by
  unfold resolveCredentials
  split
  · rfl
  · split <;> rfl

/-- Every event emitted by the profile-resolution block is a discovery
call, a selector call, or an error log line. -/
lemma resolveProfile_events_mem (args : Args) (cfg : Config) (env : Env) :
    ∀ e ∈ (resolveProfile args cfg env).2,
      (∃ s, e = Event.getProfilesCall s) ∨ (∃ l, e = Event.selectProfileCall l)
        ∨ (∃ m, e = Event.logError m) := by
  intro e he
  unfold resolveProfile at he
  split at he
  · simp at he
  · split at he
    · split at he
      · simp at he
        rcases he with h | h
        · exact Or.inl ⟨_, h⟩
        · exact Or.inr (Or.inr ⟨_, h⟩)
      · split at he
        · simp at he
          rcases he with h | h | h
          · exact Or.inl ⟨_, h⟩
          · exact Or.inr (Or.inl ⟨_, h⟩)
          · exact Or.inr (Or.inr ⟨_, h⟩)
        · simp at he
          rcases he with h | h
          · exact Or.inl ⟨_, h⟩
          · exact Or.inr (Or.inl ⟨_, h⟩)
    · split at he <;> simp at he

/-- The profile-resolution block never calls the Authentication Invoker. -/
lemma resolveProfile_no_auth (args : Args) (cfg : Config) (env : Env) (p : HostProfile) :
    Event.authenticateCall p ∉ (resolveProfile args cfg env).2 := by
  intro h
  rcases resolveProfile_events_mem args cfg env _ h with ⟨s, hs⟩ | ⟨l, hl⟩ | ⟨m, hm⟩ <;>
    simp_all

/-- The profile-resolution block never saves the configuration. -/
lemma resolveProfile_no_save (args : Args) (cfg : Config) (env : Env) (c : Config) :
    Event.saveConfig c ∉ (resolveProfile args cfg env).2 := by
  intro h
  rcases resolveProfile_events_mem args cfg env _ h with ⟨s, hs⟩ | ⟨l, hl⟩ | ⟨m, hm⟩ <;>
    simp_all

/-- The profile-resolution block never spawns a child process. -/
lemma resolveProfile_no_spawn (args : Args) (cfg : Config) (env : Env) (a : List String) :
    Event.spawn a ∉ (resolveProfile args cfg env).2 := by
  intro h
  rcases resolveProfile_events_mem args cfg env _ h with ⟨s, hs⟩ | ⟨l, hl⟩ | ⟨m, hm⟩ <;>
    simp_all

/-- The profile-resolution block writes nothing to standard output. -/
lemma stdoutWrites_resolveProfile (args : Args) (cfg : Config) (env : Env) :
    stdoutWrites (resolveProfile args cfg env).2 = [] := by
  unfold stdoutWrites
  rw [List.filterMap_eq_nil_iff]
  intro e he
  rcases resolveProfile_events_mem args cfg env _ he with ⟨s, hs⟩ | ⟨l, hl⟩ | ⟨m, hm⟩ <;>
    simp_all

/-- The filtered save/auth events of the resolution block are empty. -/
lemma resolveProfile_filter_save_auth (args : Args) (cfg : Config) (env : Env) :
    (resolveProfile args cfg env).2.filter isSave = []
      ∧ (resolveProfile args cfg env).2.filter isAuth = [] := by
  constructor <;>
  · rw [List.filter_eq_nil_iff]
    intro e he
    rcases resolveProfile_events_mem args cfg env _ he with ⟨s, hs⟩ | ⟨l, hl⟩ | ⟨m, hm⟩ <;>
      simp_all [isSave, isAuth]

/-! ### C1 — session token handoff to the child's stdin -/

/-- Concrete inputs for claim C1: the auth response of the spec's example
(`session_token = "abc123"`), a host, no pass-through arguments. -/
def c1Auth : AuthResponse :=
  { session_token := "abc123", server_cert_hash := "pin-sha256:deadbeef" }

/-- Concrete host profile for claim C1. -/
def c1Host : HostProfile :=
  { name := "example", address := "vpn.example.com", usergroup := ""
    vpn_url := "https://vpn.example.com/" }

/-- C1, counterexample: on the concrete run of the spec's own example the
launcher writes `abc123\n` and drains, but no close of the child's stdin
write side ever appears in the trace — `run_openconnect` performs
`write`/`drain`/`wait` only, refuting the claim's "then closes that
stream's write side before awaiting the child's termination". -/
theorem c1_counterexample_no_close :
    Event.stdinWrite ("abc123" ++ "\n") ∈ (run_openconnect c1Auth c1Host [] 0).2
      ∧ Event.stdinDrain ∈ (run_openconnect c1Auth c1Host [] 0).2
      ∧ Event.stdinClose ∉ (run_openconnect c1Auth c1Host [] 0).2 := by
  decide

/-- C1, amended: after starting the child, `run_openconnect` writes
exactly the session token followed by a single newline to the child's
input stream and flushes (drains) it, then awaits the child's
termination; it never closes that stream's write side. -/
theorem c1_token_write_drain_wait (auth : AuthResponse) (host : HostProfile)
    (args : List String) (code : Int) :
    (run_openconnect auth host args code).2
      = [Event.spawn ("sudo" :: "openconnect" :: "--cookie-on-stdin" :: "--servercert"
            :: auth.server_cert_hash :: (args ++ [host.vpn_url])),
         Event.stdinWrite (auth.session_token ++ "\n"),
         Event.stdinDrain,
         Event.procWait]
      ∧ Event.stdinClose ∉ (run_openconnect auth host args code).2 := by
  constructor
  · simp [run_openconnect]
  · simp [run_openconnect]

/-! ### C8 — the child-process argument list -/

/-- C8: the argument list the Process Launcher hands to the child is
exactly `sudo openconnect --cookie-on-stdin --servercert <hash>
<pass-through args> <vpn_url>`: it contains the fixed read-cookie-from-
stdin flag, the pinning flag immediately followed by `server_cert_hash`,
then all caller pass-through arguments, with the profile's VPN URL as the
final positional argument. -/
theorem c8_child_argument_list (auth : AuthResponse) (host : HostProfile)
    (args : List String) (code : Int) :
    ∃ argv,
      Event.spawn argv ∈ (run_openconnect auth host args code).2
      ∧ argv = "sudo" :: "openconnect" :: "--cookie-on-stdin" :: "--servercert"
          :: auth.server_cert_hash :: (args ++ [host.vpn_url])
      ∧ "--cookie-on-stdin" ∈ argv
      ∧ List.IsInfix ["--servercert", auth.server_cert_hash] argv
      ∧ argv.getLast? = some host.vpn_url := by
  refine ⟨_, ?_, rfl, ?_, ?_, ?_⟩
  · simp [run_openconnect]
  · simp
  · exact ⟨["sudo", "openconnect", "--cookie-on-stdin"], args ++ [host.vpn_url], by simp⟩
  · have hassoc : ("sudo" :: "openconnect" :: "--cookie-on-stdin" :: "--servercert"
        :: auth.server_cert_hash :: (args ++ [host.vpn_url]))
        = ("sudo" :: "openconnect" :: "--cookie-on-stdin" :: "--servercert"
            :: auth.server_cert_hash :: args) ++ [host.vpn_url] := by simp
    rw [hassoc, List.getLast?_concat]

/-! ### C10 — the launcher's return value and the process exit code -/

/-- C10: `run_openconnect` returns `None` regardless of the child's exit
status, and a non-headless run whose authentication succeeds (i.e. one
that reaches the launch step) makes `run` return `None`, so the process
exits 0 even when the child exited non-zero. -/
theorem c10_handoff_exits_zero (auth : AuthResponse) (host : HostProfile)
    (ocargs : List String) (code : Int)
    (args : Args) (cfg : Config) (env : Env) (a : AuthResponse) (p : HostProfile)
    (hhl : args.headless = false)
    (ha : env.authResult = Except.ok a)
    (hreach : Event.authenticateCall p ∈ (_run args cfg env).2) :
    (run_openconnect auth host ocargs code).1 = none
      ∧ (run args cfg env).1 = Except.ok none
      ∧ sysExitCode (run args cfg env).1 = 0 := by
  refine ⟨rfl, ?_⟩
  obtain ⟨res, tr, hrp⟩ :
      ∃ res tr, resolveProfile args (resolveCredentials args cfg env).2 env = (res, tr) :=
    ⟨_, _, rfl⟩
  cases res with
  | earlyReturn n =>
    exfalso
    simp only [_run, hrp] at hreach
    exact resolveProfile_no_auth args (resolveCredentials args cfg env).2 env p (hrp ▸ hreach)
  | raised e =>
    exfalso
    simp only [_run, hrp] at hreach
    exact resolveProfile_no_auth args (resolveCredentials args cfg env).2 env p (hrp ▸ hreach)
  | selected q =>
    have hrun : (_run args cfg env).1 = Except.ok none := by
      simp [_run, hrp, ha, hhl, run_openconnect]
    constructor
    · simp [run, hrun]
    · simp [run, hrun, sysExitCode]

/-- C10, witness: a concrete non-headless run with a child that exits 7
still yields `None` from the launcher and process exit code 0. -/
theorem c10_witness :
    (run_openconnect c1Auth c1Host [] 7).1 = none
      ∧ (run { headless := false }
            { default_profile := some c1Host }
            { authResult := Except.ok c1Auth, childExit := 7 }).1 = Except.ok none
      ∧ sysExitCode (run { headless := false }
            { default_profile := some c1Host }
            { authResult := Except.ok c1Auth, childExit := 7 }).1 = 0 :=
  c10_handoff_exits_zero c1Auth c1Host [] 7
    { headless := false } { default_profile := some c1Host }
    { authResult := Except.ok c1Auth, childExit := 7 } c1Auth c1Host
    rfl rfl (by decide)

/-! ### C6 — stored default short-circuits discovery -/

/-- Concrete stored default profile for claim C6's witness. -/
def c6Profile : HostProfile :=
  { name := "stored", address := "vpn.stored.example", usergroup := "g"
    vpn_url := "https://vpn.stored.example/g" }

/-- Concrete auth response for claim C6's witness. -/
def c6Auth : AuthResponse :=
  { session_token := "tok6", server_cert_hash := "hash6" }

/-- C6: with a stored default profile and neither the selector flag nor a
server argument, resolution returns the stored default unchanged with no
events, and the whole run never calls `get_profiles`. -/
theorem c6_stored_default_no_discovery (args : Args) (cfg : Config) (env : Env)
    (p : HostProfile)
    (hdef : cfg.default_profile = some p)
    (hsel : args.use_profile_selector = false)
    (hsrv : pyTruthy args.server = false) :
    resolveProfile args cfg env = (Resolution.selected p, [])
      ∧ (∀ path, Event.getProfilesCall path ∉ (_run args cfg env).2) := by
  have hd1 : ((resolveCredentials args cfg env).2).default_profile = some p := by
    rw [resolveCredentials_default_profile]; exact hdef
  have h2 : resolveProfile args (resolveCredentials args cfg env).2 env
      = (Resolution.selected p, []) := by
    simp [resolveProfile, hd1, hsel, hsrv]
  refine ⟨by simp [resolveProfile, hdef, hsel, hsrv], ?_⟩
  intro path hmem
  cases ha : env.authResult with
  | ok a =>
    by_cases hhl : args.headless
    · simp [_run, h2, ha, hhl] at hmem
    · simp [_run, h2, ha, hhl, run_openconnect] at hmem
  | error e =>
    simp [_run, h2, ha] at hmem

/-- C6, witness: a concrete configuration with a stored default and no
selector/server flags resolves to the default and performs no discovery. -/
theorem c6_witness :
    resolveProfile {} { default_profile := some c6Profile }
        { authResult := Except.ok c6Auth }
      = (Resolution.selected c6Profile, [])
    ∧ (∀ path, Event.getProfilesCall path ∉
        (_run {} { default_profile := some c6Profile }
          { authResult := Except.ok c6Auth }).2) :=
  c6_stored_default_no_discovery {} { default_profile := some c6Profile }
    { authResult := Except.ok c6Auth } c6Profile rfl rfl rfl

/-! ### C5 — empty discovery and cancelled selection exit codes -/

/-- Concrete discovered profile for claim C5's witness. -/
def c5Profile : HostProfile :=
  { name := "disc", address := "vpn.disc.example", usergroup := ""
    vpn_url := "https://vpn.disc.example/" }

/-- Concrete auth response for claim C5's witness (never reached). -/
def c5Auth : AuthResponse :=
  { session_token := "tok5", server_cert_hash := "hash5" }

/-- C5: in selector mode (the stored-default branch not taken and the
selector flag or a profile path given), an empty discovered collection
makes `_run` return 17 and a cancelled selection makes it return 18,
both without ever calling the Authentication Invoker; 17 and 18 are
non-zero and distinct from each other and from the other codes of the
program (0, 1, 2). -/
theorem c5_discovery_failure_exit_codes (args : Args) (cfg : Config) (env : Env)
    (hno : (cfg.default_profile.isSome
        && !(args.use_profile_selector || pyTruthy args.server)) = false)
    (hsel : (args.use_profile_selector || pyTruthy args.profile_path) = true) :
    (env.profiles = [] →
      (_run args cfg env).1 = Except.ok (some 17)
        ∧ (_run args cfg env).2.filter isAuth = [])
    ∧ (env.profiles ≠ [] → env.selection = none →
      (_run args cfg env).1 = Except.ok (some 18)
        ∧ (_run args cfg env).2.filter isAuth = [])
    ∧ (17 : Int) ≠ 18 ∧ (17 : Int) ≠ 0 ∧ (18 : Int) ≠ 0
    ∧ (17 : Int) ≠ 1 ∧ (18 : Int) ≠ 1 ∧ (17 : Int) ≠ 2 ∧ (18 : Int) ≠ 2 := by
  have hno1 : ((resolveCredentials args cfg env).2.default_profile.isSome
      && !(args.use_profile_selector || pyTruthy args.server)) = false := by
    rw [resolveCredentials_default_profile]; exact hno
  refine ⟨?_, ?_, by decide, by decide, by decide, by decide, by decide, by decide, by decide⟩
  · intro hemp
    have h2 : resolveProfile args (resolveCredentials args cfg env).2 env
        = (Resolution.earlyReturn 17,
            [Event.getProfilesCall (args.profile_path.getD ""),
             Event.logError "No profile found"]) := by
      simp [resolveProfile, hno1, hsel, hemp]
      intro h1 h2
      simp [h1, h2] at hno1
      exact hno1
    constructor
    · simp [_run, h2]
    · simp [_run, h2, isAuth]
  · intro hne hnosel
    have h2 : resolveProfile args (resolveCredentials args cfg env).2 env
        = (Resolution.earlyReturn 18,
            [Event.getProfilesCall (args.profile_path.getD ""),
             Event.selectProfileCall env.profiles,
             Event.logError "No profile selected"]) := by
      simp [resolveProfile, hno1, hsel, List.isEmpty_iff, hne, hnosel]
      intro h1 h2
      simp [h1, h2] at hno1
      exact hno1
    constructor
    · simp [_run, h2]
    · simp [_run, h2, isAuth]

/-- C5, witness: concretely, selector mode with no discovered profiles
returns 17 without authentication, and with one discovered profile but a
cancelled selection returns 18 without authentication. -/
theorem c5_witness :
    ((_run { use_profile_selector := true, profile_path := some "/tmp/profiles" } {}
        { authResult := Except.ok c5Auth }).1 = Except.ok (some 17)
      ∧ (_run { use_profile_selector := true, profile_path := some "/tmp/profiles" } {}
          { authResult := Except.ok c5Auth }).2.filter isAuth = [])
    ∧ ((_run { use_profile_selector := true, profile_path := some "/tmp/profiles" } {}
        { profiles := [c5Profile], selection := none,
          authResult := Except.ok c5Auth }).1 = Except.ok (some 18)
      ∧ (_run { use_profile_selector := true, profile_path := some "/tmp/profiles" } {}
          { profiles := [c5Profile], selection := none,
            authResult := Except.ok c5Auth }).2.filter isAuth = []) := by
  constructor
  · exact (c5_discovery_failure_exit_codes
      { use_profile_selector := true, profile_path := some "/tmp/profiles" } {}
      { authResult := Except.ok c5Auth } rfl rfl).1 rfl
  · exact (c5_discovery_failure_exit_codes
      { use_profile_selector := true, profile_path := some "/tmp/profiles" } {}
      { profiles := [c5Profile], selection := none, authResult := Except.ok c5Auth }
      rfl rfl).2.1 (by decide) rfl

/-! ### C2 — the ambiguous-target failure is not caught -/

/-- Concrete auth response for claim C2's inputs (never reached). -/
def c2Auth : AuthResponse :=
  { session_token := "tok2", server_cert_hash := "hash2" }

/-- C2, counterexample: on a concrete run with no stored default, no
selector flag, no profile path and no server, `_run` raises
`ValueError(...)` and `run` lets it propagate with an empty event trace:
the top-level handler catches no such failure and emits no log line, so
the claim's "the Orchestrator's top-level handler catches that failure
kind and maps it to a single log line and a specific process exit code"
is refuted. -/
theorem c2_counterexample_uncaught_valueerror :
    (run {} {} { authResult := Except.ok c2Auth }).1
      = Except.error
          (PyExc.valueError "Cannot determine server address. Invalid arguments specified.")
    ∧ (run {} {} { authResult := Except.ok c2Auth }).2 = [] :=
  ⟨rfl, rfl⟩

/-- C2, amended: when no resolution source applies, `_run` raises a plain
`ValueError` ("Cannot determine server address. Invalid arguments
specified."); the top-level handler in `run` catches only
`KeyboardInterrupt`, `Terminated`, `AuthResponseError` and `HTTPError`,
so this `ValueError` propagates uncaught with no handler log line, and
the interpreter terminates with the generic exit status 1 (a raw
traceback, not a mapped log line and specific exit code). -/
theorem c2_ambiguous_target_uncaught (args : Args) (cfg : Config) (env : Env)
    (hdef : cfg.default_profile = none)
    (hsel : args.use_profile_selector = false)
    (hpath : pyTruthy args.profile_path = false)
    (hsrv : pyTruthy args.server = false) :
    (_run args cfg env).1
      = Except.error
          (PyExc.valueError "Cannot determine server address. Invalid arguments specified.")
    ∧ (run args cfg env).1
      = Except.error
          (PyExc.valueError "Cannot determine server address. Invalid arguments specified.")
    ∧ (run args cfg env).2 = []
    ∧ sysExitCode (run args cfg env).1 = 1 := by
  have hd1 : ((resolveCredentials args cfg env).2).default_profile = none := by
    rw [resolveCredentials_default_profile]; exact hdef
  have h2 : resolveProfile args (resolveCredentials args cfg env).2 env
      = (Resolution.raised
          (PyExc.valueError "Cannot determine server address. Invalid arguments specified."),
         []) := by
    simp [resolveProfile, hd1, hsel, hpath, hsrv]
  have h3 : _run args cfg env
      = (Except.error
          (PyExc.valueError "Cannot determine server address. Invalid arguments specified."),
         []) := by
    simp [_run, h2]
  refine ⟨by rw [h3], ?_, ?_, ?_⟩ <;> simp [run, h3, sysExitCode]

/-- C2, witness: the amended behaviour at a concrete input. -/
theorem c2_witness :
    (_run { user := some "alice" } {} { authResult := Except.ok c2Auth }).1
      = Except.error
          (PyExc.valueError "Cannot determine server address. Invalid arguments specified.")
    ∧ (run { user := some "alice" } {} { authResult := Except.ok c2Auth }).1
      = Except.error
          (PyExc.valueError "Cannot determine server address. Invalid arguments specified.")
    ∧ (run { user := some "alice" } {} { authResult := Except.ok c2Auth }).2 = []
    ∧ sysExitCode (run { user := some "alice" } {} { authResult := Except.ok c2Auth }).1 = 1 :=
  c2_ambiguous_target_uncaught { user := some "alice" } {}
    { authResult := Except.ok c2Auth } rfl rfl rfl rfl

/-! ### C3 — fate of authentication failures and cancellation -/

/-- Concrete profile for claim C3's runs. -/
def c3Profile : HostProfile :=
  { name := "corp", address := "vpn.corp.example", usergroup := ""
    vpn_url := "https://vpn.corp.example/" }

/-- C3, counterexample: a concrete run whose authentication fails with an
HTTP transport error is caught by `run`, which then returns `None`, so
the process exit code is 0 — refuting the claim's "the process exits
with a non-zero code" for transport errors. -/
theorem c3_counterexample_transport_error_exits_zero :
    (run {} { default_profile := some c3Profile }
        { authResult := Except.error (PyExc.httpError "500 Server Error") }).1
      = Except.ok none
    ∧ sysExitCode (run {} { default_profile := some c3Profile }
        { authResult := Except.error (PyExc.httpError "500 Server Error") }).1 = 0 :=
  ⟨rfl, rfl⟩

/-- C3, amended: transport errors and missing-required-attribute errors
are caught by the top-level handler and logged at error level, but `run`
then returns `None`, so the process exits 0 — the same exit code as the
clean user-initiated cancellation of the authentication UI, which is
caught, logged at warning level, and also exits 0. -/
theorem c3_auth_failures_all_exit_zero (args : Args) (cfg : Config) (env : Env)
    (p : HostProfile)
    (hdef : cfg.default_profile = some p)
    (hsel : args.use_profile_selector = false)
    (hsrv : pyTruthy args.server = false) :
    (∀ m, env.authResult = Except.error (PyExc.httpError m) →
      (run args cfg env).1 = Except.ok none
        ∧ Event.logError ("Request error: " ++ m) ∈ (run args cfg env).2
        ∧ sysExitCode (run args cfg env).1 = 0)
    ∧ (∀ m, env.authResult = Except.error (PyExc.authResponseError m) →
      (run args cfg env).1 = Except.ok none
        ∧ Event.logError ("Required attributes not found in response (\"" ++ m
            ++ "\", does this endpoint do SSO?), exiting") ∈ (run args cfg env).2
        ∧ sysExitCode (run args cfg env).1 = 0)
    ∧ (env.authResult = Except.error PyExc.terminated →
      (run args cfg env).1 = Except.ok none
        ∧ Event.logWarn "Browser window terminated, exiting" ∈ (run args cfg env).2
        ∧ sysExitCode (run args cfg env).1 = 0) := by
  have hd1 : ((resolveCredentials args cfg env).2).default_profile = some p := by
    rw [resolveCredentials_default_profile]; exact hdef
  have h2 : resolveProfile args (resolveCredentials args cfg env).2 env
      = (Resolution.selected p, []) := by
    simp [resolveProfile, hd1, hsel, hsrv]
  refine ⟨?_, ?_, ?_⟩
  · intro m hm
    refine ⟨?_, ?_, ?_⟩ <;> simp [run, _run, h2, hm, sysExitCode]
  · intro m hm
    refine ⟨?_, ?_, ?_⟩ <;> simp [run, _run, h2, hm, sysExitCode]
  · intro hm
    refine ⟨?_, ?_, ?_⟩ <;> simp [run, _run, h2, hm, sysExitCode]

/-- C3, witness: the amended behaviour at a concrete transport-error
input. -/
theorem c3_witness :
    (run {} { default_profile := some c3Profile }
        { authResult := Except.error (PyExc.httpError "503") }).1 = Except.ok none
    ∧ Event.logError ("Request error: " ++ "503")
        ∈ (run {} { default_profile := some c3Profile }
            { authResult := Except.error (PyExc.httpError "503") }).2
    ∧ sysExitCode (run {} { default_profile := some c3Profile }
        { authResult := Except.error (PyExc.httpError "503") }).1 = 0 :=
  (c3_auth_failures_all_exit_zero {} { default_profile := some c3Profile }
    { authResult := Except.error (PyExc.httpError "503") } c3Profile rfl rfl rfl).1
    "503" rfl

/-! ### C4 — headless output -/

/-- Concrete profile for claim C4's witness. -/
def c4Profile : HostProfile :=
  { name := "hl", address := "vpn.example.com", usergroup := ""
    vpn_url := "https://vpn.example.com" }

/-- Concrete auth response for claim C4's witness. -/
def c4Auth : AuthResponse :=
  { session_token := "t", server_cert_hash := "h" }

/-- C4: every headless run whose authentication succeeds (it reaches the
Authentication Invoker on the resolved profile `p` and the authenticator
answers `auth`) returns 0, exits 0, writes to standard output exactly the
2-space-indented JSON rendering of the auth response's dict with the
injected `headend` key holding `p`'s VPN URL (one `print`, so one
newline-terminated payload), and never spawns the child process. -/
theorem c4_headless_json_output (args : Args) (cfg : Config) (env : Env)
    (auth : AuthResponse) (p : HostProfile)
    (hhl : args.headless = true)
    (ha : env.authResult = Except.ok auth)
    (hreach : Event.authenticateCall p ∈ (_run args cfg env).2) :
    (run args cfg env).1 = Except.ok (some 0)
    ∧ sysExitCode (run args cfg env).1 = 0
    ∧ stdoutWrites (run args cfg env).2
        = [jsonDumpsIndent2 (dictSet auth.asdict "headend" p.vpn_url) ++ "\n"]
    ∧ (∀ argv, Event.spawn argv ∉ (run args cfg env).2) := by
  obtain ⟨res, tr, hrp⟩ :
      ∃ res tr, resolveProfile args (resolveCredentials args cfg env).2 env = (res, tr) :=
    ⟨_, _, rfl⟩
  cases res with
  | earlyReturn n =>
    exfalso
    simp only [_run, hrp] at hreach
    exact resolveProfile_no_auth args (resolveCredentials args cfg env).2 env p (hrp ▸ hreach)
  | raised e =>
    exfalso
    simp only [_run, hrp] at hreach
    exact resolveProfile_no_auth args (resolveCredentials args cfg env).2 env p (hrp ▸ hreach)
  | selected q =>
    have hq : p = q := by
      simp only [_run, hrp, ha, hhl] at hreach
      simp at hreach
      rcases hreach with hmem | hpq
      · exact absurd (hrp ▸ hmem)
          (resolveProfile_no_auth args (resolveCredentials args cfg env).2 env p)
      · exact hpq
    subst hq
    have hrun : _run args cfg env
        = (Except.ok (some 0),
           tr ++ [Event.saveConfig
                    { (resolveCredentials args cfg env).2 with default_profile := some p },
                  Event.authenticateCall p,
                  Event.logWarn "Exiting after login, as requested",
                  Event.printStdout
                    (jsonDumpsIndent2 (dictSet auth.asdict "headend" p.vpn_url) ++ "\n")]) := by
      simp [_run, hrp, ha, hhl]
    have htr : stdoutWrites tr = [] := by
      have h := stdoutWrites_resolveProfile args (resolveCredentials args cfg env).2 env
      rw [hrp] at h
      exact h
    refine ⟨by simp [run, hrun], by simp [run, hrun, sysExitCode], ?_, ?_⟩
    · have hsw : stdoutWrites (run args cfg env).2
          = stdoutWrites tr
              ++ [jsonDumpsIndent2 (dictSet auth.asdict "headend" p.vpn_url) ++ "\n"] := by
        simp [run, hrun, stdoutWrites]
      rw [hsw, htr]
      rfl
    · intro argv hmem
      simp [run, hrun] at hmem
      exact resolveProfile_no_spawn args (resolveCredentials args cfg env).2 env argv
        (hrp ▸ hmem)

/-- C4, witness: the headless run on the spec's own example (`session_token
= "t"`, `server_cert_hash = "h"`, VPN URL `https://vpn.example.com`). -/
theorem c4_witness :
    (run { headless := true } { default_profile := some c4Profile }
        { authResult := Except.ok c4Auth }).1 = Except.ok (some 0)
    ∧ sysExitCode (run { headless := true } { default_profile := some c4Profile }
        { authResult := Except.ok c4Auth }).1 = 0
    ∧ stdoutWrites (run { headless := true } { default_profile := some c4Profile }
          { authResult := Except.ok c4Auth }).2
        = [jsonDumpsIndent2 (dictSet c4Auth.asdict "headend" c4Profile.vpn_url) ++ "\n"]
    ∧ (∀ argv, Event.spawn argv ∉
        (run { headless := true } { default_profile := some c4Profile }
          { authResult := Except.ok c4Auth }).2) :=
  c4_headless_json_output { headless := true } { default_profile := some c4Profile }
    { authResult := Except.ok c4Auth } c4Auth c4Profile rfl rfl (by decide)

/-! ### C7 — the configuration is persisted once, before authentication -/

/-- Concrete auth response for claim C7's witness. -/
def c7Auth : AuthResponse :=
  { session_token := "tok7", server_cert_hash := "hash7" }

/-- C7: on every run, either no save and no authentication happen at all,
or the trace decomposes as `pre ++ saveConfig c :: authenticateCall p ::
post` with the resolved profile stored as the saved configuration's
default, a single save, and no authentication before the save; and
whenever profile resolution fails (raises, or returns the 17/18 early
exits) nothing is ever saved. -/
theorem c7_persist_once_before_auth (args : Args) (cfg : Config) (env : Env) :
    (((_run args cfg env).2.filter isSave = [] ∧ (_run args cfg env).2.filter isAuth = [])
      ∨ (∃ pre c p post,
          (_run args cfg env).2
            = pre ++ Event.saveConfig c :: Event.authenticateCall p :: post
          ∧ c.default_profile = some p
          ∧ pre.filter isSave = [] ∧ post.filter isSave = []
          ∧ pre.filter isAuth = [] ∧ post.filter isAuth = []))
    ∧ (∀ e, (resolveProfile args (resolveCredentials args cfg env).2 env).1
          = Resolution.raised e →
        (_run args cfg env).2.filter isSave = [])
    ∧ (∀ n, (resolveProfile args (resolveCredentials args cfg env).2 env).1
          = Resolution.earlyReturn n →
        (_run args cfg env).2.filter isSave = []) := by
  obtain ⟨res, tr, hrp⟩ :
      ∃ res tr, resolveProfile args (resolveCredentials args cfg env).2 env = (res, tr) :=
    ⟨_, _, rfl⟩
  have htrS : tr.filter isSave = [] := by
    have h := (resolveProfile_filter_save_auth args (resolveCredentials args cfg env).2 env).1
    rw [hrp] at h
    exact h
  have htrA : tr.filter isAuth = [] := by
    have h := (resolveProfile_filter_save_auth args (resolveCredentials args cfg env).2 env).2
    rw [hrp] at h
    exact h
  cases res with
  | earlyReturn n =>
    have hrun : _run args cfg env = (Except.ok (some n), tr) := by simp [_run, hrp]
    exact ⟨Or.inl ⟨by rw [hrun]; exact htrS, by rw [hrun]; exact htrA⟩,
      fun e he => by rw [hrun]; exact htrS,
      fun m hm => by rw [hrun]; exact htrS⟩
  | raised e0 =>
    have hrun : _run args cfg env = (Except.error e0, tr) := by simp [_run, hrp]
    exact ⟨Or.inl ⟨by rw [hrun]; exact htrS, by rw [hrun]; exact htrA⟩,
      fun e he => by rw [hrun]; exact htrS,
      fun m hm => by rw [hrun]; exact htrS⟩
  | selected q =>
    have hnr : ∀ e, ¬ Resolution.selected q = Resolution.raised e := by intro e h; cases h
    have hne : ∀ n, ¬ Resolution.selected q = Resolution.earlyReturn n := by intro n h; cases h
    refine ⟨?_, fun e he => absurd (by rw [hrp] at he; exact he) (hnr e),
      fun n hn => absurd (by rw [hrp] at hn; exact hn) (hne n)⟩
    cases ha : env.authResult with
    | error e1 =>
      have hrun : (_run args cfg env).2
          = tr ++ Event.saveConfig
                { (resolveCredentials args cfg env).2 with default_profile := some q }
              :: Event.authenticateCall q :: [] := by
        simp [_run, hrp, ha]
      exact Or.inr ⟨tr, _, q, [], hrun, rfl, htrS, rfl, htrA, rfl⟩
    | ok a =>
      by_cases hhl : args.headless
      · have hrun : (_run args cfg env).2
            = tr ++ Event.saveConfig
                  { (resolveCredentials args cfg env).2 with default_profile := some q }
                :: Event.authenticateCall q
                :: [Event.logWarn "Exiting after login, as requested",
                    Event.printStdout
                      (jsonDumpsIndent2 (dictSet a.asdict "headend" q.vpn_url) ++ "\n")] := by
          simp [_run, hrp, ha, hhl]
        refine Or.inr ⟨tr, _, q, _, hrun, rfl, htrS, ?_, htrA, ?_⟩ <;>
          simp [isSave, isAuth]
      · have hrun : (_run args cfg env).2
            = tr ++ Event.saveConfig
                  { (resolveCredentials args cfg env).2 with default_profile := some q }
                :: Event.authenticateCall q
                :: [Event.spawn ("sudo" :: "openconnect" :: "--cookie-on-stdin"
                      :: "--servercert" :: a.server_cert_hash
                      :: (args.openconnect_args ++ [q.vpn_url])),
                    Event.stdinWrite (a.session_token ++ "\n"),
                    Event.stdinDrain,
                    Event.procWait] := by
          simp [_run, hrp, ha, hhl, run_openconnect]
        refine Or.inr ⟨tr, _, q, _, hrun, rfl, htrS, ?_, htrA, ?_⟩ <;>
          simp [isSave, isAuth]

/-- C7, witness: on a concrete run whose resolution raises, nothing is
saved. -/
theorem c7_witness :
    (_run {} {} { authResult := Except.ok c7Auth }).2.filter isSave = [] :=
  (c7_persist_once_before_auth {} {} { authResult := Except.ok c7Auth }).2.1
    (PyExc.valueError "Cannot determine server address. Invalid arguments specified.") rfl

/-! ### C9 — mutually exclusive flags rejected in `main` -/

/-- Concrete auth response for claim C9's runs (never reached). -/
def c9Auth : AuthResponse :=
  { session_token := "tok9", server_cert_hash := "hash9" }

/-- Concrete conflicting invocation that additionally passes the version
flag. -/
def c9cexArgs : Args :=
  { profile_path := some "/tmp/p", server := some "vpn.example.com", show_version := true }

/-- C9, counterexample: an invocation supplying both a profile path and an
explicit server but also the show-version flag makes `main` print the
version and return before the mutual-exclusivity check: no configuration
error is reported and the process exits 0, refuting the claim's "for
every invocation that supplies both ... exits non-zero". -/
theorem c9_counterexample_version_flag :
    pyTruthy c9cexArgs.profile_path = true
    ∧ pyTruthy c9cexArgs.server = true
    ∧ main c9cexArgs {} { authResult := Except.ok c9Auth } false = MainOutcome.versionShown
    ∧ mainExitCode (main c9cexArgs {} { authResult := Except.ok c9Auth } false) = 0 :=
  ⟨rfl, rfl, rfl, rfl⟩

/-- C9, amended: unless the show-version flag is supplied (which prints
the version and returns, exiting 0, before any validation), every
invocation that combines a profile-selection flag with an explicit server
or usergroup is rejected by `parser.error`: `main` reports the
mutual-exclusivity message and exits 2 without ever invoking `app.run`
(so no network activity and no profile resolution occur). -/
theorem c9_conflicting_flags_usage_error (args : Args) (cfg : Config) (env : Env)
    (d : Bool)
    (hv : args.show_version = false)
    (hps : (pyTruthy args.profile_path || args.use_profile_selector) = true)
    (hsv : (pyTruthy args.server || !args.usergroup.isEmpty) = true) :
    main args cfg env d
      = MainOutcome.usageExit 2
          "--profile/--profile-selector and --server/--usergroup are mutually exclusive"
    ∧ mainExitCode (main args cfg env d) = 2
    ∧ mainExitCode (main args cfg env d) ≠ 0
    ∧ (∀ r evs, main args cfg env d ≠ MainOutcome.ran r evs) := by
  have hcond : ((pyTruthy args.profile_path || args.use_profile_selector)
      && (pyTruthy args.server || !args.usergroup.isEmpty)) = true := by
    rw [hps, hsv]; rfl
  have h1 : main args cfg env d
      = MainOutcome.usageExit 2
          "--profile/--profile-selector and --server/--usergroup are mutually exclusive" := by
    simp [main, hv, hcond]
  refine ⟨h1, by rw [h1]; rfl, by rw [h1]; decide, ?_⟩
  intro r evs h
  rw [h1] at h
  cases h

/-- C9, witness: the amended behaviour at a concrete conflicting
invocation without the version flag. -/
theorem c9_witness :
    main { profile_path := some "/tmp/p", server := some "vpn.example.com" } {}
        { authResult := Except.ok c9Auth } false
      = MainOutcome.usageExit 2
          "--profile/--profile-selector and --server/--usergroup are mutually exclusive"
    ∧ mainExitCode (main { profile_path := some "/tmp/p", server := some "vpn.example.com" }
        {} { authResult := Except.ok c9Auth } false) = 2 :=
  ⟨(c9_conflicting_flags_usage_error
      { profile_path := some "/tmp/p", server := some "vpn.example.com" } {}
      { authResult := Except.ok c9Auth } false rfl rfl rfl).1,
   (c9_conflicting_flags_usage_error
      { profile_path := some "/tmp/p", server := some "vpn.example.com" } {}
      { authResult := Except.ok c9Auth } false rfl rfl rfl).2.1⟩

end OpenconnectSso
